import Mathlib

/-!
Verification development for the serenity-js behaviour-reporting core.

The definitions below are a shallow embedding of the repository source:
 - the templated question builder of the core screenplay module
   (functions interpolate, templateToQuestion and the),
 - the PlaywrightStepReporter stage crew member,
 - the Photographer collaborator and the BrowseTheWeb ability lookup.

Parts of the wider framework that the excerpted files only call into
(value formatting, actor ability registry, correlation id generation) are
modelled from the specification and are marked as such in doc comments.
-/

namespace Serenity

/-! ## Formatting options and values -/

/-- Formatting options for template parameter descriptions.
The source type DescriptionFormattingOptions carries a maxLength limit
used to trim the description of each template parameter. -/
structure DescriptionFormattingOptions where
  maxLength : Nat
deriving DecidableEq

/-- Modelled from the spec: the universe of values a template placeholder can
resolve to, as far as the default value-formatting strategy distinguishes
them — strings, plain objects (JSON-rendered, string-valued fields as in the
source doc examples), objects with a custom toString conversion, and masked
sensitive values. -/
inductive Value where
  | str (s : String)
  | obj (fields : List (String × String))
  | withToString (rendered : String)
  | masked (secret : String)
deriving DecidableEq

/-- Modelled from the spec: the default value-formatting strategy applied by
Question.formattedValue — quote strings, JSON-render plain objects, use the
custom string conversion when present, and replace masked values with the
fixed redaction marker. -/
def formatValue : Value → String
  | .str s => "\"" ++ s ++ "\""
  | .obj fields =>
      "\x7b " ++ String.intercalate ", " (fields.map fun f => f.1 ++ ": \"" ++ f.2 ++ "\"") ++ " \x7d"
  | .withToString rendered => rendered
  | .masked _ => "[a masked value]"

/-- Modelled from the spec: trimming of a formatted description according to
the optional DescriptionFormattingOptions (by default the output is shown in
full; with a maxLength, longer output is truncated and suffixed). -/
def trimmed (options : Option DescriptionFormattingOptions) (s : String) : String :=
  match options with
  | none => s
  | some o => if o.maxLength < s.length then s.take o.maxLength ++ "..." else s

/-! ## Actors and placeholders -/

/-- Actor context available while describing a question: the spec only
requires a name plus the ability to answer questions, which is modelled by
the answer function below. -/
structure Actor where
  name : String
deriving DecidableEq

/-- Question.formattedValue(options).of(parameter): the formatting question
over a resolved placeholder value, as handed to actor.answer by
templateToQuestion. -/
structure FormattedValueOf where
  options : Option DescriptionFormattingOptions
  value : Value

/-- Modelled from the spec: an actor answering the formatting question
resolves the placeholder as an Answerable (pending values are awaited, which
a pure model folds away) and applies the default formatting strategy with
the configured options. -/
def Actor.answer (_actor : Actor) (question : FormattedValueOf) : String :=
  trimmed question.options (formatValue question.value)

/-- A template placeholder: either a Describable (carrying its static
description and its describedBy behaviour in the context of an actor) or a
plain Answerable value. -/
inductive Parameter where
  | describable (staticDescription : String) (describedBy : Actor → String)
  | value (v : Value)

/-- Per-placeholder description resolution, embedding the body of the
asyncMap callback of templateToQuestion (source part_001, lines 181 to 183):
a Describable is described by the actor, any other parameter is answered via
actor.answer applied to Question.formattedValue(options).of(parameter). -/
def describeParameter (options : Option DescriptionFormattingOptions) (actor : Actor) :
    Parameter → String
  | .describable _ describedBy => describedBy actor
  | .value v => actor.answer { options := options, value := v }

/-- Static preview of a placeholder as used for the construction-time
description (source part_001, line 177): Question.formattedValue(options).of
renders a Describable by its own description and a plain value by the
default formatting strategy. -/
def formattedValueDescription (options : Option DescriptionFormattingOptions) :
    Parameter → String
  | .describable staticDescription _ => staticDescription
  | .value v => trimmed options (formatValue v)

/-! ## Interpolation (source part_001, lines 190 to 196) -/

/-- Body of the flatMap callback of interpolate: template segment i is
followed by parameters[i] whenever i is below the parameter count.
The index test is written exactly as in the source. -/
def interpolateSegment (parameters : List String) (ti : Nat × String) : List String :=
  if h : ti.1 < parameters.length then [ti.2, parameters.get ⟨ti.1, h⟩] else [ti.2]

/-- Embedding of interpolate: flatMap the indexed template segments and join
with the empty separator. -/
def interpolate (templates parameters : List String) : String :=
  String.join (templates.enum.flatMap (interpolateSegment parameters))

/-! ## Question construction (source part_001, lines 167 to 188) -/

/-- The QuestionAdapter of string produced by templateToQuestion: a static
construction-time description plus the description recomputed in the
context of an actor (the async body of Question.about). -/
structure Question where
  description : String
  describedBy : Actor → String

/-- Embedding of templateToQuestion (source part_001, lines 176 to 188). -/
def templateToQuestion (templates : List String) (parameters : List Parameter)
    (options : Option DescriptionFormattingOptions) : Question :=
  { description := interpolate templates (parameters.map (formattedValueDescription options))
  , describedBy := fun actor =>
      interpolate templates (parameters.map (describeParameter options actor)) }

/-- First argument of the overloaded function the: either a
DescriptionFormattingOptions object or a template strings array. -/
inductive TheFirstArg where
  | options (o : DescriptionFormattingOptions)
  | templates (ts : List String)

/-- Modelled from the spec: ValueInspector.isPlainObject — an options record
is a plain object, a template strings array is an array and therefore not a
plain object. -/
def isPlainObject : TheFirstArg → Bool
  | .options _ => true
  | .templates _ => false

/-- Reading the first argument as formatting options (the cast performed by
the source in its options branch). -/
def TheFirstArg.asOptions : TheFirstArg → Option DescriptionFormattingOptions
  | .options o => some o
  | .templates _ => none

/-- Reading the first argument as the template strings array (the cast
performed by the source in its tagged-template branch). -/
def TheFirstArg.asTemplates : TheFirstArg → List String
  | .options _ => []
  | .templates ts => ts

/-- Result of a call to the: either a template tag function awaiting the
templates and placeholders, or the question built directly. -/
inductive TheResult where
  | tag (f : List String → List Parameter → Question)
  | question (q : Question)

/-- Embedding of the dispatching body of the (source part_001, lines
169 to 174). -/
def the (arg : TheFirstArg) (rest : List Parameter) : TheResult :=
  if isPlainObject arg then
    .tag fun templates parameters => templateToQuestion templates parameters arg.asOptions
  else
    .question (templateToQuestion arg.asTemplates rest none)

/-- Two consecutive description computations of the same question, with the
same options and the same actor. -/
def describeTwice (templates : List String) (parameters : List Parameter)
    (options : Option DescriptionFormattingOptions) (actor : Actor) : String × String :=
  let question := templateToQuestion templates parameters options
  (question.describedBy actor, question.describedBy actor)

/-- The description shape promised by the specification for a template with
k literal segments and k-1 placeholders: templates[0] + d1 + templates[1] +
... + d(k-1) + templates[k-1]. -/
def specRoundTripDescription : List String → List String → String
  | [], _ => ""
  | t :: _, [] => t
  | t :: ts, d :: ds => t ++ d ++ specRoundTripDescription ts ds

/-! ## Interpolation lemmas -/

theorem string_join_cons (s : String) (l : List String) :
    String.join (s :: l) = s ++ String.join l := by
  rw [String.join_eq, String.join_eq]
  rfl

theorem interpolateSegment_zero (p t : String) (ps : List String) :
    interpolateSegment (p :: ps) (0, t) = [t, p] := by
  simp [interpolateSegment]

theorem interpolateSegment_succ (i : Nat) (x p : String) (ps : List String) :
    interpolateSegment (p :: ps) (i + 1, x) = interpolateSegment ps (i, x) := by
  by_cases h : i < ps.length
  · simp [interpolateSegment, h, Nat.succ_lt_succ_iff]
  · simp [interpolateSegment, h, Nat.succ_lt_succ_iff]

theorem interpolateSegment_nilParams (i : Nat) (x : String) :
    interpolateSegment [] (i, x) = [x] := by
  simp [interpolateSegment]

theorem enumFrom_flatMap_shift (ts : List String) :
    ∀ (n : Nat) (p : String) (ps : List String),
      (List.enumFrom (n + 1) ts).flatMap (interpolateSegment (p :: ps)) =
        (List.enumFrom n ts).flatMap (interpolateSegment ps) := by
  induction ts with
  | nil => intro n p ps; rfl
  | cons t ts ih =>
      intro n p ps
      simp only [List.enumFrom_cons, List.flatMap_cons]
      rw [interpolateSegment_succ, ih]

theorem enumFrom_flatMap_nilParams (ts : List String) :
    ∀ n : Nat, (List.enumFrom n ts).flatMap (interpolateSegment []) = ts := by
  induction ts with
  | nil => intro n; rfl
  | cons t ts ih =>
      intro n
      simp only [List.enumFrom_cons, List.flatMap_cons]
      rw [interpolateSegment_nilParams, ih]
      rfl

theorem interpolate_cons_cons (t p : String) (ts ps : List String) :
    interpolate (t :: ts) (p :: ps) = t ++ (p ++ interpolate ts ps) := by
  unfold interpolate
  rw [List.enum_cons, List.flatMap_cons, interpolateSegment_zero,
    show (1 : Nat) = 0 + 1 from rfl, enumFrom_flatMap_shift]
  simp only [List.cons_append, List.nil_append]
  rw [string_join_cons, string_join_cons]
  rfl

theorem interpolate_nilParams (ts : List String) :
    interpolate ts [] = String.join ts := by
  unfold interpolate
  rw [show ts.enum = List.enumFrom 0 ts from rfl, enumFrom_flatMap_nilParams]

theorem interpolate_eq_spec :
    ∀ (ds ts : List String), ts.length = ds.length + 1 →
      interpolate ts ds = specRoundTripDescription ts ds := by
  intro ds
  induction ds with
  | nil =>
      intro ts h
      match ts, h with
      | [t], _ =>
          rw [interpolate_nilParams]
          show String.join (t :: []) = specRoundTripDescription [t] []
          rw [string_join_cons]
          show t ++ "" = t
          simp
  | cons d ds ih =>
      intro ts h
      match ts with
      | t :: ts =>
          have hlen : ts.length = ds.length + 1 := by
            simpa using h
          rw [interpolate_cons_cons, ih ts hlen]
          show t ++ (d ++ specRoundTripDescription ts ds) =
            specRoundTripDescription (t :: ts) (d :: ds)
          simp [specRoundTripDescription, String.append_assoc]

/-! ## Claims about the templated question builder -/

/-- Claim C1: a question built by the from a template with k literal
segments and k-1 placeholders, when asked to describe itself in the context
of an actor, produces exactly templates[0] + d1 + templates[1] + ... +
d(k-1) + templates[k-1], where di is the resolved description of
placeholder i — literal segments verbatim and in order, placeholder text
interposed in order, nothing reordered or dropped. -/
theorem the_question_roundtrip_description (templates : List String)
    (parameters : List Parameter) (options : Option DescriptionFormattingOptions)
    (actor : Actor) (h : templates.length = parameters.length + 1) :
    (templateToQuestion templates parameters options).describedBy actor =
      specRoundTripDescription templates
        (parameters.map (describeParameter options actor)) := by
  have hlen : templates.length = (parameters.map (describeParameter options actor)).length + 1 := by
    simpa using h
  exact interpolate_eq_spec _ _ hlen

/-- Witness for C1 at a concrete template with two placeholders. -/
theorem the_question_roundtrip_description_witness :
    ([ "#actor dials ", " on ", "" ] : List String).length =
        ([ Parameter.value (.str "555"), Parameter.value (.masked "pin") ] : List Parameter).length + 1 ∧
    (templateToQuestion [ "#actor dials ", " on ", "" ]
        [ Parameter.value (.str "555"), Parameter.value (.masked "pin") ] none).describedBy
        { name := "Alice" } =
      specRoundTripDescription [ "#actor dials ", " on ", "" ]
        ([ Parameter.value (.str "555"), Parameter.value (.masked "pin") ].map
          (describeParameter none { name := "Alice" })) :=
  ⟨by decide,
   the_question_roundtrip_description
     [ "#actor dials ", " on ", "" ]
     [ Parameter.value (.str "555"), Parameter.value (.masked "pin") ]
     none { name := "Alice" } (by decide)⟩

/-- Claim C5: per-placeholder description resolution — the description of
the question interposes, for each placeholder, describedBy of the actor
when the placeholder is Describable, and otherwise the actor answering
Question.formattedValue(options).of(placeholder), whose default formatting
quotes strings, JSON-renders plain objects, uses a custom string conversion
when present, and replaces masked values by the fixed redaction marker. -/
theorem placeholder_resolution_rule (options : Option DescriptionFormattingOptions)
    (actor : Actor) :
    (∀ (templates : List String) (parameters : List Parameter),
      (templateToQuestion templates parameters options).describedBy actor =
        interpolate templates (parameters.map (describeParameter options actor))) ∧
    (∀ (d : String) (describedBy : Actor → String),
      describeParameter options actor (.describable d describedBy) = describedBy actor) ∧
    (∀ v : Value,
      describeParameter options actor (.value v) =
        actor.answer { options := options, value := v }) ∧
    (∀ s : String,
      actor.answer { options := options, value := .str s } =
        trimmed options ("\"" ++ s ++ "\"")) ∧
    (∀ fields : List (String × String),
      actor.answer { options := options, value := .obj fields } =
        trimmed options ("\x7b " ++
          String.intercalate ", " (fields.map fun f => f.1 ++ ": \"" ++ f.2 ++ "\"") ++ " \x7d")) ∧
    (∀ rendered : String,
      actor.answer { options := options, value := .withToString rendered } =
        trimmed options rendered) ∧
    (∀ secret : String,
      actor.answer { options := options, value := .masked secret } =
        trimmed options "[a masked value]") :=
  ⟨fun _ _ => rfl, fun _ _ => rfl, fun _ => rfl, fun _ => rfl, fun _ => rfl,
   fun _ => rfl, fun _ => rfl⟩

/-- Claim C8: describing the same templated question twice with the same
formatting options and the same actor yields identical strings — the
description is a pure function of template, placeholders, options and
actor. -/
theorem describe_same_question_twice_identical (templates : List String)
    (parameters : List Parameter) (options : Option DescriptionFormattingOptions)
    (actor : Actor) :
    (describeTwice templates parameters options actor).1 =
      (describeTwice templates parameters options actor).2 := rfl

/-- Claim C10: the dispatches on its first argument — exactly the plain
options object is treated as an options call, returning a template tag
building the question by the same templateToQuestion interpolation with
those options, while a template strings array is dispatched directly to
templateToQuestion with no options and is never treated as an options
call. -/
theorem the_dispatch_on_first_argument (o : DescriptionFormattingOptions)
    (ts : List String) (ps rest : List Parameter) :
    isPlainObject (.options o) = true ∧
    isPlainObject (.templates ts) = false ∧
    the (TheFirstArg.options o) rest =
      .tag (fun templates parameters => templateToQuestion templates parameters (some o)) ∧
    the (TheFirstArg.templates ts) ps =
      .question (templateToQuestion ts ps none) :=
  ⟨rfl, rfl, rfl, rfl⟩

/-! ## Domain events and the Playwright step reporter
(source PlaywrightStepReporter.ts) -/

/-- Source location of an activity, as consumed by createStep. Line and
column are optional because the synthetic Photographer location carries a
path only. -/
structure Location where
  file : String
  line : Option Nat
  column : Option Nat
deriving DecidableEq

/-- ActivityDetails: human-readable name and optional source location. -/
structure ActivityDetails where
  name : String
  location : Option Location
deriving DecidableEq

/-- Outcome of a finished activity, distinguished by the reporter only by
whether it is a ProblemIndication carrying an error. -/
inductive Outcome where
  | success
  | problemIndication (error : String)
deriving DecidableEq

/-- Artifact payload attached to an ActivityRelatedArtifactGenerated event;
the reporter reacts only to Photo artifacts. -/
inductive Artifact where
  | photo (base64EncodedValue : String)
  | other (kind : String)
deriving DecidableEq

/-- The domain events the reporter distinguishes. Correlation and activity
ids are string-backed value objects compared by value. -/
inductive DomainEvent where
  | taskStarts (activityId : String) (details : ActivityDetails)
  | interactionStarts (activityId : String) (details : ActivityDetails)
  | asyncOperationAttempted (name : String) (description : String) (correlationId : String)
  | asyncOperationCompleted (correlationId : String)
  | asyncOperationAborted (correlationId : String)
  | asyncOperationFailed (error : String) (correlationId : String)
  | interactionFinished (activityId : String) (outcome : Outcome)
  | taskFinished (activityId : String) (outcome : Outcome)
  | activityRelatedArtifactGenerated (activityId : String) (name : String) (artifact : Artifact)
  | sceneTagged (tagType : String) (tagName : String)
deriving DecidableEq

/-- The in-flight Playwright test step tracked per correlation id: the data
passed to testInfo._addStep by createStep plus the completion status of the
step (none while running, some none completed without error, some (some e)
completed with error e). -/
structure TestStepInternal where
  title : String
  category : String
  location : Option Location
  completion : Option (Option String)
deriving DecidableEq

/-- Completing a step, mirroring TestStepInternal.complete(result). -/
def TestStepInternal.complete (step : TestStepInternal) (error : Option String) :
    TestStepInternal :=
  { step with completion := some error }

/-- Embedding of createStep: builds the step handed to testInfo._addStep
from the activity details and the serenity-js step type. -/
def createStep (activityDetails : ActivityDetails) (stepType : String) : TestStepInternal :=
  { location := activityDetails.location
  , category := "serenity-js:" ++ stepType
  , title := activityDetails.name
  , completion := none }

/-- Insertion-ordered string map mirroring the JS Map held in the steps
field: set replaces the value of an existing key in place and otherwise
appends the new entry. -/
def mapSet (m : List (String × TestStepInternal)) (k : String) (v : TestStepInternal) :
    List (String × TestStepInternal) :=
  match m with
  | [] => [(k, v)]
  | (k0, v0) :: rest => if k0 = k then (k, v) :: rest else (k0, v0) :: mapSet rest k v

/-- Map lookup mirroring Map.get (undefined becomes none). -/
def mapGet (m : List (String × TestStepInternal)) (k : String) : Option TestStepInternal :=
  (m.find? fun p => p.1 == k).map Prod.snd

/-- Key membership mirroring Map.has. -/
def mapHas (m : List (String × TestStepInternal)) (k : String) : Bool :=
  m.any fun p => p.1 == k

/-- Name of the Photographer crew member class, the prefix the reporter
looks for on AsyncOperationAttempted events. -/
def photographerName : String := "Photographer"

/-- Name of the reporter class itself, announced as the name of its own
async attachment operations (this.constructor.name). -/
def reporterClassName : String := "PlaywrightStepReporter"

/-- The fixed source location the reporter attributes to Photographer crew
steps (genericPathToPhotographer). -/
def genericPathToPhotographer : Location :=
  { file := "@serenity-js/web", line := none, column := none }

/-- Modelled from the spec: CorrelationId.create produces an opaque
string-backed id, fresh per invocation and never reused; the model derives
it injectively from a per-reporter counter. -/
def freshCorrelationId (n : Nat) : String :=
  "serenity-" ++ String.mk (List.replicate n 'x')

/-- State of the reporter: the steps map, the annotations pushed to
testInfo, and the counter backing CorrelationId.create. -/
structure PlaywrightStepReporter where
  steps : List (String × TestStepInternal)
  testAnnotations : List (String × String)
  nextCorrelationId : Nat
deriving DecidableEq

/-- Result of the asynchronous testInfo.attach call triggered for a Photo
artifact: the promise either fulfills or rejects with an error. -/
inductive AttachOutcome where
  | fulfilled
  | rejected (error : String)
deriving DecidableEq

/-- The message announced with the attachment attempt. -/
def attachingMessage (name : String) : String :=
  "Attaching screenshot of \x27" ++ name ++ "\x27..."

/-- Embedding of PlaywrightStepReporter.notifyOf. The result is the updated
reporter state together with the events it announces onto the stage, in
announcement order; a thrown TypeError (calling complete on an undefined
step) is an error result. The attachment promise outcome is an input of the
model since the environment decides it. -/
def notifyOf (reporter : PlaywrightStepReporter) (event : DomainEvent)
    (attachOutcome : AttachOutcome) :
    Except String (PlaywrightStepReporter × List DomainEvent) :=
  match event with
  | .taskStarts activityId details =>
      .ok ({ reporter with
              steps := mapSet reporter.steps activityId (createStep details "task") }, [])
  | .interactionStarts activityId details =>
      .ok ({ reporter with
              steps := mapSet reporter.steps activityId (createStep details "interaction") }, [])
  | .asyncOperationAttempted name description correlationId =>
      if name.startsWith photographerName then
        .ok ({ reporter with
                steps := mapSet reporter.steps correlationId
                  (createStep
                    { name := photographerName ++ ": " ++ description
                    , location := some genericPathToPhotographer } "crew") }, [])
      else
        .ok (reporter, [])
  | .asyncOperationCompleted correlationId =>
      if mapHas reporter.steps correlationId then
        match mapGet reporter.steps correlationId with
        | some step =>
            .ok ({ reporter with
                    steps := mapSet reporter.steps correlationId (step.complete none) }, [])
        | none => .error "TypeError: complete is not a function of undefined"
      else
        .ok (reporter, [])
  | .asyncOperationAborted correlationId =>
      if mapHas reporter.steps correlationId then
        match mapGet reporter.steps correlationId with
        | some step =>
            .ok ({ reporter with
                    steps := mapSet reporter.steps correlationId (step.complete none) }, [])
        | none => .error "TypeError: complete is not a function of undefined"
      else
        .ok (reporter, [])
  | .asyncOperationFailed error correlationId =>
      if mapHas reporter.steps correlationId then
        match mapGet reporter.steps correlationId with
        | some step =>
            .ok ({ reporter with
                    steps := mapSet reporter.steps correlationId (step.complete (some error)) }, [])
        | none => .error "TypeError: complete is not a function of undefined"
      else
        .ok (reporter, [])
  | .interactionFinished activityId outcome =>
      match mapGet reporter.steps activityId with
      | some step =>
          .ok ({ reporter with
                  steps := mapSet reporter.steps activityId
                    (step.complete (match outcome with
                      | .problemIndication error => some error
                      | .success => none)) }, [])
      | none => .error "TypeError: cannot call complete on undefined step"
  | .taskFinished activityId outcome =>
      match mapGet reporter.steps activityId with
      | some step =>
          .ok ({ reporter with
                  steps := mapSet reporter.steps activityId
                    (step.complete (match outcome with
                      | .problemIndication error => some error
                      | .success => none)) }, [])
      | none => .error "TypeError: cannot call complete on undefined step"
  | .activityRelatedArtifactGenerated _activityId name artifact =>
      match artifact with
      | .photo _ =>
          let id := freshCorrelationId reporter.nextCorrelationId
          .ok ({ reporter with nextCorrelationId := reporter.nextCorrelationId + 1 },
            [ DomainEvent.asyncOperationAttempted reporterClassName (attachingMessage name) id ]
            ++ (match attachOutcome with
                | .fulfilled => [ DomainEvent.asyncOperationCompleted id ]
                | .rejected _ => []))
      | .other _ => .ok (reporter, [])
  | .sceneTagged tagType tagName =>
      .ok ({ reporter with
              testAnnotations := reporter.testAnnotations ++ [(tagType, tagName)] }, [])

/-- Sequential delivery of a list of events to the reporter, every
attachment fulfilling, stopping at the first thrown error. -/
def runEvents (reporter : PlaywrightStepReporter) :
    List DomainEvent → Except String PlaywrightStepReporter
  | [] => .ok reporter
  | e :: es =>
      match notifyOf reporter e .fulfilled with
      | .ok (reporter2, _) => runEvents reporter2 es
      | .error msg => .error msg

/-- The AsyncOperationCompleted events for a given correlation id within an
announced event list. -/
def completedEventsFor (id : String) (es : List DomainEvent) : List DomainEvent :=
  es.filter fun e =>
    match e with
    | .asyncOperationCompleted i => i == id
    | _ => false

/-! ## Reporter lemmas -/

theorem mapHas_mapSet_of_mapHas (m : List (String × TestStepInternal)) (k k2 : String)
    (v : TestStepInternal) (hk : mapHas m k = true) :
    mapHas (mapSet m k2 v) k = true := by
  induction m with
  | nil => simp [mapHas] at hk
  | cons p rest ih =>
      obtain ⟨k0, v0⟩ := p
      by_cases hq : k0 = k2
      · subst hq
        simp only [mapSet, if_pos rfl]
        simp only [mapHas, List.any_cons] at hk ⊢
        exact hk
      · simp only [mapSet, if_neg hq]
        simp only [mapHas, List.any_cons] at hk ⊢
        rcases Bool.or_eq_true_iff.mp hk with h0 | hrest
        · exact Bool.or_eq_true_iff.mpr (Or.inl h0)
        · exact Bool.or_eq_true_iff.mpr (Or.inr (ih hrest))

theorem freshCorrelationId_injective : Function.Injective freshCorrelationId := by
  intro m n h
  have hlen := congrArg String.length h
  simpa [freshCorrelationId, String.length_append] using hlen

/-! ## Claims about the Playwright step reporter -/

/-- Claim C2 counterexample: a TaskFinished event whose activity id is not
a key of the steps map makes notifyOf fail with a TypeError (the source
calls complete on the undefined result of Map.get without a guard), so the
reporter does not ignore every terminal event with an unknown id. -/
theorem taskFinished_unknown_id_fails :
    notifyOf { steps := [], testAnnotations := [], nextCorrelationId := 0 }
        (.taskFinished "unknown-op" .success) .fulfilled =
      .error "TypeError: cannot call complete on undefined step" := rfl

/-- Claim C2 as amended: only the async-operation terminal events
(AsyncOperationCompleted, AsyncOperationAborted, AsyncOperationFailed) with
an unknown correlation id are ignored by notifyOf — no failure, reporter
state unchanged, nothing announced; InteractionFinished and TaskFinished
with an unknown activity id fail instead. -/
theorem async_terminal_event_unknown_id_ignored (r : PlaywrightStepReporter)
    (id err : String) (a : AttachOutcome) (h : mapHas r.steps id = false) :
    notifyOf r (.asyncOperationCompleted id) a = .ok (r, []) ∧
    notifyOf r (.asyncOperationAborted id) a = .ok (r, []) ∧
    notifyOf r (.asyncOperationFailed err id) a = .ok (r, []) := by
  refine ⟨?_, ?_, ?_⟩ <;> simp [notifyOf, h]

/-- Witness for the amended C2 at an empty steps map. -/
theorem async_terminal_event_unknown_id_ignored_witness :
    notifyOf { steps := [], testAnnotations := [], nextCorrelationId := 0 }
        (.asyncOperationCompleted "unknown-op") .fulfilled =
      .ok ({ steps := [], testAnnotations := [], nextCorrelationId := 0 }, []) :=
  (async_terminal_event_unknown_id_ignored
    { steps := [], testAnnotations := [], nextCorrelationId := 0 }
    "unknown-op" "boom" .fulfilled rfl).1

/-- Claim C3: the reporter announces no AsyncOperationFailed event when the
attachment promise of a Photo artifact rejects — the source chains no
rejection handler, so the rejection is reported nowhere and the announced
events are the lone AsyncOperationAttempted; the failure also does not
propagate into the notifyOf result. -/
theorem rejected_attachment_announces_no_failure (r : PlaywrightStepReporter)
    (activityId name b64 err : String) :
    notifyOf r (.activityRelatedArtifactGenerated activityId name (.photo b64))
        (.rejected err) =
      .ok ({ r with nextCorrelationId := r.nextCorrelationId + 1 },
        [ .asyncOperationAttempted reporterClassName (attachingMessage name)
            (freshCorrelationId r.nextCorrelationId) ]) ∧
    ([ DomainEvent.asyncOperationAttempted reporterClassName (attachingMessage name)
        (freshCorrelationId r.nextCorrelationId) ].all fun e =>
      match e with
      | .asyncOperationFailed _ _ => false
      | .asyncOperationCompleted _ => false
      | .asyncOperationAborted _ => false
      | _ => true) = true :=
  ⟨rfl, rfl⟩

/-- Claim C4 counterexample: after the matching terminal event
TaskFinished, the in-flight record created for the TaskStarts with the same
activity id is still a key of the steps map — it is marked completed, never
removed. -/
theorem record_kept_after_matching_terminal_event :
    (runEvents { steps := [], testAnnotations := [], nextCorrelationId := 0 }
        [ .taskStarts "op-1" { name := "pay with a card", location := none },
          .taskFinished "op-1" .success ]).map
        (fun r => (mapHas r.steps "op-1", (mapGet r.steps "op-1").map TestStepInternal.completion)) =
      .ok (true, some (some none)) := rfl

/-- Claim C4 as amended: the in-flight record is marked completed upon the
matching terminal event but is never removed from the steps map — no event
removes an entry, the key set of the map only grows. -/
theorem steps_entries_never_removed (r : PlaywrightStepReporter) (e : DomainEvent)
    (a : AttachOutcome) (r2 : PlaywrightStepReporter) (es : List DomainEvent)
    (h : notifyOf r e a = .ok (r2, es)) (k : String) (hk : mapHas r.steps k = true) :
    mapHas r2.steps k = true := by
  cases e <;> simp only [notifyOf] at h
  case taskStarts activityId details =>
    obtain ⟨h1, -⟩ := Prod.mk.injEq .. ▸ (Except.ok.inj h)
    rw [← h1]
    exact mapHas_mapSet_of_mapHas _ _ _ _ hk
  case interactionStarts activityId details =>
    obtain ⟨h1, -⟩ := Prod.mk.injEq .. ▸ (Except.ok.inj h)
    rw [← h1]
    exact mapHas_mapSet_of_mapHas _ _ _ _ hk
  case asyncOperationAttempted name description correlationId =>
    split at h
    · obtain ⟨h1, -⟩ := Prod.mk.injEq .. ▸ (Except.ok.inj h)
      rw [← h1]
      exact mapHas_mapSet_of_mapHas _ _ _ _ hk
    · obtain ⟨h1, -⟩ := Prod.mk.injEq .. ▸ (Except.ok.inj h)
      rw [← h1]
      exact hk
  case asyncOperationCompleted correlationId =>
    split at h
    · split at h
      · obtain ⟨h1, -⟩ := Prod.mk.injEq .. ▸ (Except.ok.inj h)
        rw [← h1]
        exact mapHas_mapSet_of_mapHas _ _ _ _ hk
      · exact absurd h (by simp)
    · obtain ⟨h1, -⟩ := Prod.mk.injEq .. ▸ (Except.ok.inj h)
      rw [← h1]
      exact hk
  case asyncOperationAborted correlationId =>
    split at h
    · split at h
      · obtain ⟨h1, -⟩ := Prod.mk.injEq .. ▸ (Except.ok.inj h)
        rw [← h1]
        exact mapHas_mapSet_of_mapHas _ _ _ _ hk
      · exact absurd h (by simp)
    · obtain ⟨h1, -⟩ := Prod.mk.injEq .. ▸ (Except.ok.inj h)
      rw [← h1]
      exact hk
  case asyncOperationFailed error correlationId =>
    split at h
    · split at h
      · obtain ⟨h1, -⟩ := Prod.mk.injEq .. ▸ (Except.ok.inj h)
        rw [← h1]
        exact mapHas_mapSet_of_mapHas _ _ _ _ hk
      · exact absurd h (by simp)
    · obtain ⟨h1, -⟩ := Prod.mk.injEq .. ▸ (Except.ok.inj h)
      rw [← h1]
      exact hk
  case interactionFinished activityId outcome =>
    split at h
    · obtain ⟨h1, -⟩ := Prod.mk.injEq .. ▸ (Except.ok.inj h)
      rw [← h1]
      exact mapHas_mapSet_of_mapHas _ _ _ _ hk
    · exact absurd h (by simp)
  case taskFinished activityId outcome =>
    split at h
    · obtain ⟨h1, -⟩ := Prod.mk.injEq .. ▸ (Except.ok.inj h)
      rw [← h1]
      exact mapHas_mapSet_of_mapHas _ _ _ _ hk
    · exact absurd h (by simp)
  case activityRelatedArtifactGenerated activityId name artifact =>
    split at h
    · obtain ⟨h1, -⟩ := Prod.mk.injEq .. ▸ (Except.ok.inj h)
      rw [← h1]
      exact hk
    · obtain ⟨h1, -⟩ := Prod.mk.injEq .. ▸ (Except.ok.inj h)
      rw [← h1]
      exact hk
  case sceneTagged tagType tagName =>
    obtain ⟨h1, -⟩ := Prod.mk.injEq .. ▸ (Except.ok.inj h)
    rw [← h1]
    exact hk

/-- Witness for the amended C4: a step registered under a key survives an
unrelated event. -/
theorem steps_entries_never_removed_witness :
    mapHas ({ steps := [("op-1", createStep { name := "n", location := none } "task")]
            , testAnnotations := [("feature", "payments")]
            , nextCorrelationId := 0 } : PlaywrightStepReporter).steps "op-1" = true :=
  steps_entries_never_removed
    { steps := [("op-1", createStep { name := "n", location := none } "task")]
    , testAnnotations := [], nextCorrelationId := 0 }
    (.sceneTagged "feature" "payments") .fulfilled
    { steps := [("op-1", createStep { name := "n", location := none } "task")]
    , testAnnotations := [("feature", "payments")], nextCorrelationId := 0 }
    [] rfl "op-1" rfl

/-- Claim C6: on an ActivityRelatedArtifactGenerated event carrying a Photo
the reporter announces an AsyncOperationAttempted with a freshly created
correlation id and, once the attachment fulfills, exactly one later
AsyncOperationCompleted with the same id — the Attempted always precedes
the Completed, and the id differs from every id created at another counter
value. -/
theorem photo_artifact_attempt_then_completion (r : PlaywrightStepReporter)
    (activityId name b64 : String) :
    notifyOf r (.activityRelatedArtifactGenerated activityId name (.photo b64)) .fulfilled =
      .ok ({ r with nextCorrelationId := r.nextCorrelationId + 1 },
        [ .asyncOperationAttempted reporterClassName (attachingMessage name)
            (freshCorrelationId r.nextCorrelationId),
          .asyncOperationCompleted (freshCorrelationId r.nextCorrelationId) ]) ∧
    completedEventsFor (freshCorrelationId r.nextCorrelationId)
        [ .asyncOperationAttempted reporterClassName (attachingMessage name)
            (freshCorrelationId r.nextCorrelationId),
          .asyncOperationCompleted (freshCorrelationId r.nextCorrelationId) ] =
      [ .asyncOperationCompleted (freshCorrelationId r.nextCorrelationId) ] ∧
    (∀ m : Nat, m ≠ r.nextCorrelationId →
      freshCorrelationId m ≠ freshCorrelationId r.nextCorrelationId) :=
  ⟨rfl, by simp [completedEventsFor],
   fun _ hm heq => hm (freshCorrelationId_injective heq)⟩

/-! ## Abilities, BrowseTheWeb.as and the Photographer
(source BrowseTheWeb.ts and part_000) -/

/-- Capability types by which abilities are registered and resolved. -/
inductive AbilityType where
  | browseTheWeb
  | custom (typeName : String)
deriving DecidableEq

/-- An ability instance held by an actor: the BrowseTheWeb ability carries
the screenshot payload its takeScreenshot call produces; other abilities
are opaque to the excerpted sources. -/
inductive Ability where
  | browseTheWeb (screenshotData : String)
  | custom (typeName : String)
deriving DecidableEq

/-- The capability type under which an ability instance is registered. -/
def Ability.capability : Ability → AbilityType
  | .browseTheWeb _ => .browseTheWeb
  | .custom n => .custom n

/-- Printable name of a capability type, used in the ability-not-found
error message. -/
def AbilityType.displayName : AbilityType → String
  | .browseTheWeb => "BrowseTheWeb"
  | .custom n => n

/-- A screenplay actor: a name and the registered abilities (at most one
per capability type, per the data model of the spec). -/
structure ScreenplayActor where
  name : String
  abilities : List Ability

/-- Modelled from the spec: actor.abilityTo(CapabilityType) returns the
registered instance or fails with an ability-not-found error naming the
missing capability and the actor name (the Actor class itself is not among
the excerpted sources). -/
def ScreenplayActor.abilityTo (actor : ScreenplayActor) (t : AbilityType) :
    Except String Ability :=
  match actor.abilities.find? (fun a => a.capability == t) with
  | some a => .ok a
  | none =>
      .error ("Actor " ++ actor.name ++ " does not have an ability to " ++ t.displayName)

/-- Embedding of BrowseTheWeb.as (source BrowseTheWeb.ts, lines 17 to 19):
the lookup of the BrowseTheWeb ability registered with the actor. -/
def BrowseTheWeb.as (actor : ScreenplayActor) : Except String Ability :=
  actor.abilityTo .browseTheWeb

/-- The screenshot payload produced by an ability instance when it is the
BrowseTheWeb ability (takeScreenshot). -/
def Ability.takeScreenshot : Ability → Option String
  | .browseTheWeb screenshotData => some screenshotData
  | .custom _ => none

/-- The step a screenshot is associated with (opaque to the Photographer). -/
structure Step where
  name : String
deriving DecidableEq

/-- The Screenshot artifact value: the step and the stored path or
reference returned by the outlet. -/
structure Screenshot where
  step : Step
  path : String
deriving DecidableEq

/-- The outlet collaborator persisting pictures: sendPicture receives the
filename and the data and returns the stored path or reference. -/
structure Outlet where
  sendPicture : String → String → String

/-- Embedding of the filenameFor closure of takeAPictureOf: the
content-addressed filename derived from the raw screenshot bytes by the
hash (the external Md5.hashStr collaborator is a parameter of the model). -/
def filenameFor (hashStr : String → String) (data : String) : String :=
  hashStr data ++ ".png"

/-- Embedding of Photographer.takeAPictureOf (source part_000, lines 12 to
20): obtain the screenshot through the BrowseTheWeb ability of the actor,
save it through the outlet under the content-addressed filename, and
associate the step with the returned path. -/
def Photographer.takeAPictureOf (hashStr : String → String) (outlet : Outlet)
    (actor : ScreenplayActor) (step : Step) : Except String Screenshot := do
  let ability ← BrowseTheWeb.as actor
  match ability.takeScreenshot with
  | some data =>
      pure { step := step, path := outlet.sendPicture (filenameFor hashStr data) data }
  | none => .error "TypeError: takeScreenshot is not available"

/-! ## Claims about the Photographer and the ability lookup -/

/-- Claim C7: takeAPictureOf persists the screenshot payload through the
outlet under the content-addressed filename hashStr(data) + ".png" — a pure
function of the raw bytes alone — and returns a Screenshot associating the
given step with the path returned by the outlet. -/
theorem takeAPictureOf_content_addressed (hashStr : String → String) (outlet : Outlet)
    (actor : ScreenplayActor) (step : Step) (data : String)
    (h : BrowseTheWeb.as actor = .ok (.browseTheWeb data)) :
    Photographer.takeAPictureOf hashStr outlet actor step =
      .ok { step := step, path := outlet.sendPicture (hashStr data ++ ".png") data } ∧
    filenameFor hashStr data = hashStr data ++ ".png" := by
  constructor
  · simp [Photographer.takeAPictureOf, h, Ability.takeScreenshot, filenameFor,
      Bind.bind, Except.bind, Pure.pure, Except.pure]
  · rfl

/-- Witness for C7 with a concrete hash, outlet, actor and step. -/
theorem takeAPictureOf_content_addressed_witness :
    Photographer.takeAPictureOf (fun s => s ++ "-hash")
        { sendPicture := fun filename _data => "target/" ++ filename }
        { name := "Alice", abilities := [ .browseTheWeb "img-bytes" ] }
        { name := "checks out" } =
      .ok { step := { name := "checks out" }, path := "target/img-bytes-hash.png" } ∧
    filenameFor (fun s => s ++ "-hash") "img-bytes" = "img-bytes-hash.png" :=
  takeAPictureOf_content_addressed (fun s => s ++ "-hash")
    { sendPicture := fun filename _data => "target/" ++ filename }
    { name := "Alice", abilities := [ .browseTheWeb "img-bytes" ] }
    { name := "checks out" } "img-bytes" rfl

/-- Claim C9: BrowseTheWeb.as is exactly the ability lookup
actor.abilityTo(BrowseTheWeb): it returns the BrowseTheWeb ability instance
registered with the actor, and when none is registered it fails with an
ability-not-found error naming both the missing capability and the actor
name. -/
theorem browseTheWeb_as_resolution (actor : ScreenplayActor) :
    BrowseTheWeb.as actor = actor.abilityTo .browseTheWeb ∧
    (∀ a : Ability,
      actor.abilities.find? (fun a2 => a2.capability == AbilityType.browseTheWeb) = some a →
      BrowseTheWeb.as actor = .ok a) ∧
    (actor.abilities.find? (fun a2 => a2.capability == AbilityType.browseTheWeb) = none →
      BrowseTheWeb.as actor =
        .error ("Actor " ++ actor.name ++ " does not have an ability to " ++ "BrowseTheWeb")) := by
  refine ⟨rfl, ?_, ?_⟩
  · intro a h
    simp [BrowseTheWeb.as, ScreenplayActor.abilityTo, h]
  · intro h
    simp [BrowseTheWeb.as, ScreenplayActor.abilityTo, h, AbilityType.displayName]

/-- Witness for C9: a misconfigured actor without abilities receives the
ability-not-found error. -/
theorem browseTheWeb_as_resolution_witness :
    BrowseTheWeb.as { name := "Alice", abilities := [] } =
      .error ("Actor " ++ "Alice" ++ " does not have an ability to " ++ "BrowseTheWeb") :=
  (browseTheWeb_as_resolution { name := "Alice", abilities := [] }).2.2 rfl

end Serenity
